import Mathlib

/-!
Verification of the `http_client` fingerprinting and retry library.

This file gives a shallow embedding, in Lean 4, of the parts of the
Python package `src/http_client` that the specification talks about:

* `JA3Generator` (src/http_client/fingerprint/ja3.py): TLS fingerprint
  strings with a manually permuted extension list (Python uses
  `random.shuffle`, a Fisher-Yates walk from the top index down, each
  step swapping the current index with a uniformly drawn index below
  it; here the drawn indices are passed in explicitly as a list).
* `AkamaiGenerator` (src/http_client/fingerprint/akamai.py): HTTP/2
  fingerprint strings; the random draws (inclusion coin, choice
  indices) are again explicit parameters.
* `BrowserInfo` (src/http_client/config.py): browser-type detection
  from user-agent / client-hint text and version extraction.
* `HTTPClient._generate_profile`, `HTTPClient._get_headers`,
  `HTTPClient.randomize` (src/http_client/client.py): profile assembly
  and ordered header composition with a per-client request counter.
* `RetryConfig` / `RetryMixin.request_with_retry`
  (src/http_client/retry.py): retry classification, the attempt loop,
  and backoff arithmetic (floats are modelled as rationals).
* `SessionManager.load_cookies` / `import_session`
  (src/http_client/session.py): persistence import behaviour, with the
  file modelled by its parse outcome (missing / malformed / parsed).

Randomness is modelled by passing the stream of draws as arguments, so
every theorem quantifying over those arguments covers all random
choices the Python code can make.
-/

namespace HttpClient

/-! ### List machinery: swaps and the Fisher-Yates shuffle -/

/-- One in-place swap `x[i], x[j] = x[j], x[i]` on a Python list,
modelled on Lean lists.  Out-of-range indices leave the list unchanged
(the shuffle below only ever swaps in range). -/
def listSwap {α : Type} (l : List α) (i j : Nat) : List α :=
  if hi : i < l.length then
    if hj : j < l.length then
      (l.set i (l.get ⟨j, hj⟩)).set j (l.get ⟨i, hi⟩)
    else l
  else l

/-- Putting the element at index `m` in front of the list with index `m`
overwritten by `a` is a permutation of putting `a` in front of the
original list. -/
theorem cons_get_set_perm {α : Type} (a : α) :
    ∀ (t : List α) (m : Nat) (hm : m < t.length),
      List.Perm (t.get ⟨m, hm⟩ :: t.set m a) (a :: t)
  | b :: t, 0, _ => by
      simpa using List.Perm.swap a b t
  | b :: t, m + 1, hm => by
      have hm' : m < t.length := by simpa using Nat.lt_of_succ_lt_succ hm
      have ih := cons_get_set_perm a t m hm'
      have h1 : ((b :: t).get ⟨m + 1, hm⟩ :: (b :: t).set (m + 1) a)
          = t.get ⟨m, hm'⟩ :: b :: t.set m a := by simp
      rw [h1]
      exact ((List.Perm.swap b (t.get ⟨m, hm'⟩) (t.set m a)).trans
        (ih.cons b)).trans (List.Perm.swap a b t)

/-- A double `set` realizing a transposition of two in-range positions
is a permutation of the original list. -/
theorem set_swap_perm {α : Type} :
    ∀ (l : List α) (i j : Nat) (hi : i < l.length) (hj : j < l.length),
      List.Perm ((l.set i (l.get ⟨j, hj⟩)).set j (l.get ⟨i, hi⟩)) l
  | a :: t, 0, 0, _, _ => by simp
  | a :: t, 0, m + 1, hi, hj => by
      have hm : m < t.length := by simpa using Nat.lt_of_succ_lt_succ hj
      simpa using cons_get_set_perm a t m hm
  | a :: t, k + 1, 0, hi, hj => by
      have hk : k < t.length := by simpa using Nat.lt_of_succ_lt_succ hi
      simpa using cons_get_set_perm a t k hk
  | a :: t, k + 1, m + 1, hi, hj => by
      have hk : k < t.length := by simpa using Nat.lt_of_succ_lt_succ hi
      have hm : m < t.length := by simpa using Nat.lt_of_succ_lt_succ hj
      have ih := set_swap_perm t k m hk hm
      simpa using ih.cons a

/-- `listSwap` always permutes. -/
theorem listSwap_perm {α : Type} (l : List α) (i j : Nat) :
    List.Perm (listSwap l i j) l := by
  unfold listSwap
  split
  · split
    · exact set_swap_perm l i j _ _
    · exact List.Perm.refl l
  · exact List.Perm.refl l

/-- The loop of Python's `random.shuffle`: the first argument is the
current top index `i` (walked from `len - 1` down to `1`), and each
step swaps index `i` with `j % (i + 1)` where `j` is the next random
draw.  A too-short draw list stops the walk early. -/
def shuffleAux {α : Type} (l : List α) : Nat → List Nat → List α
  | 0, _ => l
  | _ + 1, [] => l
  | i + 1, j :: js => shuffleAux (listSwap l (i + 1) (j % (i + 2))) i js

/-- `random.shuffle` with the stream of drawn indices `js` made
explicit. -/
def shuffle {α : Type} (js : List Nat) (l : List α) : List α :=
  shuffleAux l (l.length - 1) js

theorem shuffleAux_perm {α : Type} :
    ∀ (n : Nat) (js : List Nat) (l : List α), List.Perm (shuffleAux l n js) l
  | 0, _, l => List.Perm.refl l
  | _ + 1, [], l => List.Perm.refl l
  | i + 1, j :: js, l =>
      List.Perm.trans (shuffleAux_perm i js (listSwap l (i + 1) (j % (i + 2))))
        (listSwap_perm l (i + 1) (j % (i + 2)))

/-- The shuffled list is a permutation of the input, whatever the
random draws were. -/
theorem shuffle_perm {α : Type} (js : List Nat) (l : List α) :
    List.Perm (shuffle js l) l :=
  shuffleAux_perm (l.length - 1) js l

/-! ### JA3Generator (src/http_client/fingerprint/ja3.py) -/

namespace JA3Generator

def TLS_VERSION : String := "771"

def CIPHERS : String :=
  "4865-4866-4867-49195-49199-49196-49200-52393-52392-49171-49172-156-157-47-53"

/-- Base extensions shared by all versions (order gets randomized). -/
def BASE_EXTENSIONS : List String :=
  ["0", "5", "10", "11", "13", "16", "18", "23", "27", "35", "43", "45",
   "51", "65037", "65281"]

/-- ECH extension, appended for version 117 and above. -/
def ECH_EXTENSION : String := "17613"

/-- `CURVE_SETS` selection: `kyber` for version 130 and above, `old`
below. -/
def curvesFor (version : Nat) : String :=
  if 130 ≤ version then "4588-29-23-24" else "29-23-24"

def EC_POINT_FORMATS : String := "0"

/-- The extension list that `generate` serializes: the base list, plus
the ECH extension once `version ≥ 117`, run through the random
permutation (`_permute_extensions`, i.e. `random.shuffle` with draw
stream `js`). -/
def ja3ExtList (version : Nat) (js : List Nat) : List String :=
  shuffle js (BASE_EXTENSIONS ++ if 117 ≤ version then [ECH_EXTENSION] else [])

/-- `JA3Generator.generate`.  The Python signature takes a
`browser_type` argument, but the body never reads it: every browser
type goes through the same permutation path. -/
def generate (version : Nat) (browserType : String) (js : List Nat) : String :=
  TLS_VERSION ++ "," ++ CIPHERS ++ "," ++
    String.intercalate "-" (ja3ExtList version js) ++ "," ++
    curvesFor version ++ "," ++ EC_POINT_FORMATS

end JA3Generator

/-! ### AkamaiGenerator (src/http_client/fingerprint/akamai.py) -/

/-- `random.choice` on a fixed non-empty table, with the drawn index
made explicit (reduced modulo the table length). -/
def choiceL {α : Type} (l : List α) (d : α) (i : Nat) : α :=
  l.getD (i % l.length) d

namespace AkamaiGenerator

def WINDOW_UPDATE_VALUES : List Nat :=
  [15663105, 15728640, 15794175, 15859710, 15925245,
   15990780, 16056315, 16121850, 16187385, 16252920]

def PRIORITY_VALUES : List String := ["0", "0", "0", "1", "3"]

def PSEUDO_HEADER_ORDERS : List String := ["m,a,s,p", "m,s,a,p", "m,p,a,s"]

/-- The random draws one call to `AkamaiGenerator.generate` makes:
the 40% inclusion coin and the choice indices for
`MAX_CONCURRENT_STREAMS`, `WINDOW_UPDATE`, priority and pseudo-header
order. -/
structure AkRnd where
  includeMax : Bool
  maxIdx : Nat
  windowIdx : Nat
  priorityIdx : Nat
  pseudoIdx : Nat

/-- `AkamaiGenerator._generate_settings`.  Safari returns a fixed
settings string before any random draw is consulted. -/
def generateSettings (browserType : String) (r : AkRnd) : String :=
  if browserType = "safari" then "1:4096;4:4194304;6:262144"
  else
    String.intercalate ";"
      (["1:65536"]
        ++ (if browserType = "chrome" ∨ browserType = "brave" then ["2:0"] else [])
        ++ (if r.includeMax then
              ["3:" ++ toString (choiceL [100, 200, 500, 1000] 100 r.maxIdx)]
            else [])
        ++ ["4:6291456", "6:262144"])

/-- `AkamaiGenerator.generate`:
`SETTINGS|WINDOW_UPDATE|PRIORITY|PseudoHeaderOrder`. -/
def generate (browserType : String) (r : AkRnd) : String :=
  generateSettings browserType r ++ "|"
    ++ toString (choiceL WINDOW_UPDATE_VALUES 0 r.windowIdx) ++ "|"
    ++ choiceL PRIORITY_VALUES "0" r.priorityIdx ++ "|"
    ++ choiceL PSEUDO_HEADER_ORDERS "m,a,s,p" r.pseudoIdx

end AkamaiGenerator

/-! ### BrowserInfo (src/http_client/config.py) -/

/-- `needle.isPrefixOf hay` tested at every suffix: Python's
substring test `needle in hay` on character lists. -/
def containsSub {α : Type} [DecidableEq α] : List α → List α → Bool
  | [], needle => needle.isEmpty
  | a :: t, needle => needle.isPrefixOf (a :: t) || containsSub t needle

/-- Python `sub in s` for strings. -/
def strContains (s sub : String) : Bool :=
  containsSub s.data sub.data

namespace BrowserInfo

/-- The fall-through tail of `_detect_browser_type` (reached when there
is no truthy `sec_ch_ua` or none of its markers matched). -/
def detectTail (ua : String) : String :=
  if strContains ua "Safari" && !strContains ua "Chrome" && !strContains ua "Edg"
  then "safari"
  else if strContains ua "Edg" then "edge"
  else "chrome"

/-- `BrowserInfo._detect_browser_type`.  A `none` or empty client-hint
string is falsy in Python, skipping the client-hint checks. -/
def detectBrowserType (ua : String) (secChUa : Option String) : String :=
  let hdr := secChUa.getD ""
  if hdr ≠ "" then
    if strContains hdr "Brave" then "brave"
    else if strContains hdr "Edge" || strContains ua "Edg" then "edge"
    else if strContains hdr "Chrome" then "chrome"
    else detectTail ua
  else detectTail ua

/-- Digits-to-number, `int` on a non-empty run of decimal digits. -/
def digitsToNat (l : List Char) : Nat :=
  l.foldl (fun n c => n * 10 + (c.toNat - 48)) 0

/-- `re.search(marker + digits)`: find the leftmost occurrence of
`marker` that is followed by at least one digit and return the maximal
digit run after it. -/
def searchDigits (marker : List Char) : List Char → Option Nat
  | [] => none
  | c :: rest =>
    if marker.isPrefixOf (c :: rest) then
      let ds := ((c :: rest).drop marker.length).takeWhile Char.isDigit
      if ds.isEmpty then searchDigits marker rest else some (digitsToNat ds)
    else searchDigits marker rest

/-- `BrowserInfo._extract_version`: a per-type marker pattern
(`Chrome/` for chrome, brave and any unknown type, `Edg/` for edge,
`Version/` for safari), defaulting to 143 when nothing matches. -/
def extractVersion (ua : String) (browserType : String) : Nat :=
  let marker : String :=
    if browserType = "edge" then "Edg/"
    else if browserType = "safari" then "Version/"
    else "Chrome/"
  match searchDigits marker.data ua.data with
  | some n => n
  | none => 143

end BrowserInfo

/-! ### Profile assembly and header composition (src/http_client/client.py) -/

/-- A resolved entry of `UserAgentGenerator.PROFILES` (the result of
the identity selection step, whichever forced or weighted-random path
produced it). -/
structure UserAgentInfo where
  ua : String
  secChUa : Option String
  platform : String
  mobile : Bool

/-- `FingerprintProfile` (src/http_client/fingerprint/profile.py),
restricted to the fields the client reads. -/
structure FingerprintProfile where
  ja3 : String
  akamai : String
  userAgent : String
  secChUa : Option String
  secChUaMobile : String
  secChUaPlatform : String
  browserType : String
  platform : String
  mobile : Bool

/-- `HTTPClient._generate_profile`: classify the selected identity,
extract its version, and feed the same `browser_type` to both
fingerprint generators and into the stored profile fields. -/
def generateProfile (uaInfo : UserAgentInfo) (js : List Nat)
    (ra : AkamaiGenerator.AkRnd) : FingerprintProfile :=
  let bt := BrowserInfo.detectBrowserType uaInfo.ua uaInfo.secChUa
  let v := BrowserInfo.extractVersion uaInfo.ua bt
  { ja3 := JA3Generator.generate v bt js
    akamai := AkamaiGenerator.generate bt ra
    userAgent := uaInfo.ua
    secChUa := uaInfo.secChUa
    secChUaMobile := if uaInfo.mobile then "?1" else "?0"
    secChUaPlatform := "\"" ++ uaInfo.platform ++ "\""
    browserType := bt
    platform := uaInfo.platform
    mobile := uaInfo.mobile }

/-- The client state the header composer touches: the request counter
and the current profile (the transport session object is out of
scope). -/
structure ClientState where
  requestCount : Nat
  profile : FingerprintProfile

/-- Ordered-dictionary update `m[k] = v`: replace in place if the key
exists, else append.  This is Python dict assignment order. -/
def odSet (m : List (String × String)) (k v : String) : List (String × String) :=
  if m.any (fun p => p.1 = k) then
    m.map (fun p => if p.1 = k then (k, v) else p)
  else m ++ [(k, v)]

/-- Ordered-dictionary lookup. -/
def odGet (m : List (String × String)) (k : String) : Option String :=
  (m.find? (fun p => p.1 = k)).map (fun p => p.2)

def acceptNavigate : String :=
  "text/html,application/xhtml+xml,application/xml;q=0.9,"
    ++ "image/avif,image/webp,image/apng,*/*;q=0.8,"
    ++ "application/signed-exchange;v=b3;q=0.7"

/-- The header dictionary `_get_headers` builds before merging caller
overrides.  Every key is assigned exactly once, so the
insertion-ordered dict is this list. -/
def baseHeaders (p : FingerprintProfile) (count : Nat) (requestType : String) :
    List (String × String) :=
  let isNavigate := requestType = "navigate"
  let isBrave := p.browserType = "brave"
  let isFirstRequest := count = 0
  [("accept", if isNavigate then acceptNavigate else "*/*"),
   ("accept-language", "en-US,en;q=0.9"),
   ("accept-encoding", "gzip, deflate, br, zstd"),
   ("cache-control", if isFirstRequest then "no-cache" else "max-age=0"),
   ("pragma", "no-cache")]
  ++ (if isBrave then [("dnt", "1"), ("sec-gpc", "1")] else [])
  ++ [("priority", if isNavigate then "u=0, i" else "u=1, i")]
  ++ (if p.secChUa.getD "" ≠ "" then
        [("sec-ch-ua", p.secChUa.getD ""),
         ("sec-ch-ua-mobile", if p.mobile then "?1" else "?0"),
         ("sec-ch-ua-platform", "\"" ++ p.platform ++ "\"")]
      else [])
  ++ (if isNavigate then
        [("sec-fetch-dest", "document"), ("sec-fetch-mode", "navigate"),
         ("sec-fetch-site", "none"), ("sec-fetch-user", "?1")]
      else
        [("sec-fetch-dest", "empty"), ("sec-fetch-mode", "cors"),
         ("sec-fetch-site", "same-site")])
  ++ (if isNavigate then [("upgrade-insecure-requests", "1")] else [])
  ++ [("user-agent", p.userAgent)]

/-- `HTTPClient._get_headers`: compose the ordered header set (caller
overrides merged last, winning in place) and increment the request
counter, unconditionally. -/
def getHeaders (st : ClientState) (extra : List (String × String))
    (requestType : String) : List (String × String) × ClientState :=
  (extra.foldl (fun m kv => odSet m kv.1 kv.2)
      (baseHeaders st.profile st.requestCount requestType),
   { st with requestCount := st.requestCount + 1 })

/-- `HTTPClient.randomize`: replace the whole profile (and recreate the
transport session); the request counter is not touched. -/
def randomize (st : ClientState) (uaInfo : UserAgentInfo) (js : List Nat)
    (ra : AkamaiGenerator.AkRnd) : ClientState :=
  { st with profile := generateProfile uaInfo js ra }

/-! ### Retry engine (src/http_client/retry.py)

Float arithmetic is modelled over `ℚ`; the jitter draw
`random.random()` is an explicit rational in `[0, 1)`. -/

/-- `RetryConfig`. -/
structure RetryConfig where
  maxRetries : Nat
  backoffFactor : ℚ
  retryOnStatus : List Nat
  retryOnTimeout : Bool
  jitter : Bool

/-- The defaults of the `RetryConfig` dataclass. -/
def defaultRetryConfig : RetryConfig :=
  { maxRetries := 3
    backoffFactor := 1 / 2
    retryOnStatus := [429, 500, 502, 503, 504]
    retryOnTimeout := true
    jitter := true }

/-- `RetryConfig.should_retry`.  The exception argument carries a flag
telling whether it was a timeout; the Python body never inspects the
exception object, only its presence, so the flag is unread.  A
received response object is always truthy. -/
def shouldRetry (cfg : RetryConfig) (response : Option Nat)
    (exception : Option Bool) : Bool :=
  if exception.isSome then cfg.retryOnTimeout
  else
    match response with
    | some s => decide (s ∈ cfg.retryOnStatus)
    | none => false

/-- `RetryConfig.get_backoff_time` with the jitter draw `r` explicit:
`backoff_factor * 2 ** attempt`, times `0.5 + r * 0.5` when jitter is
enabled. -/
def getBackoffTime (cfg : RetryConfig) (attempt : Nat) (r : ℚ) : ℚ :=
  let delay := cfg.backoffFactor * 2 ^ attempt
  if cfg.jitter then delay * (1 / 2 + r * (1 / 2)) else delay

/-- What the wrapped request function does on one call: complete with
a status, or throw (flagged as timeout or not). -/
inductive ReqOutcome where
  | resp (status : Nat)
  | exc (isTimeout : Bool)
deriving DecidableEq

/-- How `request_with_retry` ends, together with how many times it
called the request function.  `exhausted` is the post-loop
`RuntimeError` path, reachable only if the loop body never runs. -/
inductive RetryResult where
  | returned (status : Nat) (calls : Nat)
  | raised (isTimeout : Bool) (calls : Nat)
  | exhausted
deriving DecidableEq

/-- The retry loop body of `RetryMixin.request_with_retry`: at attempt
`attempt`, call `f attempt`; a retryable outcome with attempts left
loops (after a backoff sleep, irrelevant to the result), otherwise a
response is returned and an exception re-raised. -/
def retryAux (cfg : RetryConfig) (f : Nat → ReqOutcome) :
    Nat → Nat → RetryResult
  | 0, _ => .exhausted
  | fuel + 1, attempt =>
    match f attempt with
    | .resp s =>
      if shouldRetry cfg (some s) none && decide (attempt < cfg.maxRetries) then
        retryAux cfg f fuel (attempt + 1)
      else .returned s (attempt + 1)
    | .exc t =>
      if shouldRetry cfg none (some t) && decide (attempt < cfg.maxRetries) then
        retryAux cfg f fuel (attempt + 1)
      else .raised t (attempt + 1)

/-- `RetryMixin.request_with_retry`: run the loop
`for attempt in range(max_retries + 1)`. -/
def requestWithRetry (cfg : RetryConfig) (f : Nat → ReqOutcome) : RetryResult :=
  retryAux cfg f (cfg.maxRetries + 1) 0

/-! ### Session persistence (src/http_client/session.py)

A file is modelled by its read-and-parse outcome: `missing` (the
`path.exists()` check fails), `malformed` (`json.load` or the
mandatory-key accesses raise), or the parsed payload with the
per-field `.get` defaults already applied.  A raising Python call is
an `Except.error`. -/

/-- One cookie in the jar (the fields `load_cookies` and
`import_session` set). -/
structure CookieRecord where
  name : String
  value : String
  domain : String
  path : String
  secure : Bool
deriving DecidableEq

/-- The cookie and header state of the managed session. -/
structure SessionState where
  cookies : List CookieRecord
  headers : List (String × String)
deriving DecidableEq

/-- `session.cookies.set`: replace the cookie with the same name,
domain and path, else add it. -/
def setCookie (cs : List CookieRecord) (c : CookieRecord) : List CookieRecord :=
  if cs.any (fun x => x.name = c.name ∧ x.domain = c.domain ∧ x.path = c.path) then
    cs.map (fun x =>
      if x.name = c.name ∧ x.domain = c.domain ∧ x.path = c.path then c else x)
  else cs ++ [c]

/-- Parse outcome of a cookie file (`name -> record` mapping). -/
inductive CookieFile where
  | missing
  | malformed
  | parsed (entries : List CookieRecord)

/-- `SessionManager.load_cookies`: a missing file is logged and
ignored; a malformed one raises out of `json.load`. -/
def loadCookies (st : SessionState) (file : CookieFile) :
    Except Unit SessionState :=
  match file with
  | .missing => .ok st
  | .malformed => .error ()
  | .parsed entries =>
    .ok { st with cookies := entries.foldl (fun cs e => setCookie cs e) st.cookies }

/-- Parse outcome of a session export file
(`{cookies: [...], headers: {...}}`). -/
inductive SessionFile where
  | missing
  | malformed
  | parsed (cookies : List CookieRecord) (headers : List (String × String))

/-- `SessionManager.import_session`: a missing file is logged and
ignored; a malformed one raises out of `json.load`. -/
def importSession (st : SessionState) (file : SessionFile) :
    Except Unit SessionState :=
  match file with
  | .missing => .ok st
  | .malformed => .error ()
  | .parsed cks hdrs =>
    .ok { cookies := cks.foldl (fun acc c => setCookie acc c) st.cookies
          headers := hdrs.foldl (fun m kv => odSet m kv.1 kv.2) st.headers }

/-! ### Helper lemmas about ordered-dictionary lookups -/

theorem find?_map_override (k k' v : String) (h : k' ≠ k) :
    ∀ t : List (String × String),
      List.find? (fun q => q.1 = k)
          (t.map (fun q => if q.1 = k' then (k', v) else q))
        = List.find? (fun q => q.1 = k) t
  | [] => rfl
  | q :: t => by
    by_cases hq : q.1 = k'
    · have h2 : ¬ (q.1 = k) := by rw [hq]; exact h
      simp only [List.map_cons, if_pos hq]
      rw [List.find?_cons_of_neg _ (by simpa using h),
        List.find?_cons_of_neg _ (by simpa using h2)]
      exact find?_map_override k k' v h t
    · simp only [List.map_cons, if_neg hq]
      by_cases hk : q.1 = k
      · rw [List.find?_cons_of_pos _ (by simpa using hk),
          List.find?_cons_of_pos _ (by simpa using hk)]
      · rw [List.find?_cons_of_neg _ (by simpa using hk),
          List.find?_cons_of_neg _ (by simpa using hk)]
        exact find?_map_override k k' v h t

theorem odGet_odSet_ne (m : List (String × String)) (k k' v : String)
    (h : k' ≠ k) : odGet (odSet m k' v) k = odGet m k := by
  unfold odSet odGet
  split
  · rw [find?_map_override k k' v h m]
  · rw [List.find?_append]
    have hnone : List.find? (fun q => q.1 = k) [(k', v)] = none := by
      simp [h]
    rw [hnone, Option.or_none]

theorem odGet_foldl_odSet_ne (extra : List (String × String)) (k : String)
    (h : ∀ kv ∈ extra, kv.1 ≠ k) :
    ∀ m : List (String × String),
      odGet (extra.foldl (fun m kv => odSet m kv.1 kv.2) m) k = odGet m k := by
  induction extra with
  | nil => intro m; rfl
  | cons kv t ih =>
    intro m
    have hkv : kv.1 ≠ k := h kv (List.mem_cons_self kv t)
    have ht : ∀ kv ∈ t, kv.1 ≠ k := fun x hx => h x (List.mem_cons_of_mem kv hx)
    rw [List.foldl_cons, ih ht, odGet_odSet_ne m k kv.1 kv.2 hkv]

theorem odGet_baseHeaders_cacheControl (p : FingerprintProfile) (count : Nat)
    (rt : String) :
    odGet (baseHeaders p count rt) "cache-control"
      = some (if count = 0 then "no-cache" else "max-age=0") := by
  by_cases hc : count = 0 <;>
    simp [baseHeaders, odGet, List.find?, hc]

/-- Shared lookup fact: with no caller override of `cache-control`, the
composed header set carries `no-cache` exactly on the first request. -/
theorem cacheControl_of_getHeaders (st : ClientState)
    (extra : List (String × String)) (rt : String)
    (h : ∀ kv ∈ extra, kv.1 ≠ "cache-control") :
    odGet (getHeaders st extra rt).1 "cache-control"
      = some (if st.requestCount = 0 then "no-cache" else "max-age=0") := by
  unfold getHeaders
  rw [odGet_foldl_odSet_ne extra "cache-control" h]
  exact odGet_baseHeaders_cacheControl st.profile st.requestCount rt

/-- Reading a delimiter-separated field back as a list, splitting at
every occurrence of the separator character. -/
def splitOnChar (c : Char) : List Char → List (List Char)
  | [] => [[]]
  | a :: t =>
    match splitOnChar c t with
    | [] => [[a]]
    | h :: r => if a = c then [] :: h :: r else (a :: h) :: r

/-- The ids listed in a dash-delimited JA3 field. -/
def dashIds (s : String) : List String :=
  (splitOnChar '-' s.data).map (fun l => String.mk l)

/-! ## The claims -/

/-- C1, counterexample: for a safari identity, neither the TLS
fingerprint string nor the HTTP/2 fingerprint string is a fixed
constant.  `JA3Generator.generate` runs safari through the same
extension permutation as every other browser type (two different
shuffle draws give two different strings for safari version 18), and
`AkamaiGenerator.generate` randomizes the priority field (draw index 0
gives "0", draw index 3 gives "1"). -/
theorem safari_fixed_fingerprint_counterexample :
    JA3Generator.generate 18 "safari" [] ≠ JA3Generator.generate 18 "safari" [0]
  ∧ AkamaiGenerator.generate "safari" ⟨false, 0, 0, 0, 0⟩
      ≠ AkamaiGenerator.generate "safari" ⟨false, 0, 0, 3, 0⟩ := by
  constructor <;> decide

/-- C1, amended: only the HTTP/2 SETTINGS field is a fixed constant
for safari; the TLS fingerprint is produced by the very same generic
permutation path as every other browser type (`generate` never reads
its `browser_type` argument), and the window-update, priority and
pseudo-header-order fields of the HTTP/2 fingerprint stay
randomized. -/
theorem safari_settings_fixed_tls_generic (version : Nat)
    (browserType : String) (js : List Nat) (r : AkamaiGenerator.AkRnd) :
    JA3Generator.generate version "safari" js
      = JA3Generator.generate version browserType js
  ∧ AkamaiGenerator.generateSettings "safari" r = "1:4096;4:4194304;6:262144" :=
  ⟨rfl, rfl⟩

/-- C2 (confirmed): with `max_retries = 2` and 503 retryable, a
request function answering 503 on every call is called exactly 3
times, and the loop returns the third 503 response instead of
raising. -/
theorem retry_503_three_calls_returns_response (cfg : RetryConfig)
    (f : Nat → ReqOutcome) (hmax : cfg.maxRetries = 2)
    (hstat : 503 ∈ cfg.retryOnStatus) (hf : ∀ k, f k = .resp 503) :
    requestWithRetry cfg f = .returned 503 3 := by
  obtain ⟨mr, bf, ros, rot, jit⟩ := cfg
  simp only at hmax
  subst hmax
  have hs : shouldRetry ⟨2, bf, ros, rot, jit⟩ (some 503) none = true := by
    simp [shouldRetry, hstat]
  simp [requestWithRetry, retryAux, hf, hs]

/-- C2 witness: the default status set with `max_retries` forced to 2
and the constant-503 request function. -/
def cfg503 : RetryConfig :=
  { defaultRetryConfig with maxRetries := 2 }

/-- C2, instantiated at `cfg503`. -/
theorem retry_503_three_calls_returns_response_witness :
    requestWithRetry cfg503 (fun _ => .resp 503) = .returned 503 3 :=
  retry_503_three_calls_returns_response cfg503 (fun _ => .resp 503) rfl
    (by decide) (fun _ => rfl)

/-- C3 (confirmed): for every version and every draw stream, the
permuted extension list that `generate` serializes into the extension
field is a permutation of the fixed base multiset, extended by exactly
the ECH extension once the version reaches the threshold 117; it has
no duplicate and omits nothing. -/
theorem ja3_extensions_permutation (version : Nat) (browserType : String)
    (js : List Nat) :
    List.Perm (JA3Generator.ja3ExtList version js)
      (JA3Generator.BASE_EXTENSIONS
        ++ if 117 ≤ version then [JA3Generator.ECH_EXTENSION] else [])
  ∧ (JA3Generator.ja3ExtList version js).Nodup
  ∧ JA3Generator.generate version browserType js
      = JA3Generator.TLS_VERSION ++ "," ++ JA3Generator.CIPHERS ++ ","
        ++ String.intercalate "-" (JA3Generator.ja3ExtList version js) ++ ","
        ++ JA3Generator.curvesFor version ++ "," ++ JA3Generator.EC_POINT_FORMATS := by
  have hperm := shuffle_perm js
    (JA3Generator.BASE_EXTENSIONS
      ++ if 117 ≤ version then [JA3Generator.ECH_EXTENSION] else [])
  refine ⟨hperm, hperm.nodup_iff.mpr ?_, rfl⟩
  by_cases h : 117 ≤ version <;>
    simp only [if_pos, if_neg, h] <;> decide

/-- C4, counterexample: with the timeout-retry flag set (its default),
an exception that is *not* a timeout is retried rather than propagated
on first occurrence: here the request function always throws a
non-timeout exception and is called twice (`max_retries = 1`), not
once. -/
theorem nontimeout_exception_retried_counterexample :
    requestWithRetry { defaultRetryConfig with maxRetries := 1 }
        (fun _ => .exc false)
      = .raised false 2
  ∧ requestWithRetry { defaultRetryConfig with maxRetries := 1 }
        (fun _ => .exc false)
      ≠ .raised false 1 := by
  constructor <;> decide

/-- C4, amended: a completed response is retryable iff its status is
in the configured code set; an exception is retryable iff the
timeout-retry flag is set, *whether or not it is a timeout* (the code
never inspects the exception); consequently only when the flag is
unset does an exception — timeout or not — propagate on its first
occurrence with exactly one call performed. -/
theorem retry_classification_amended (cfg : RetryConfig) (s : Nat) (e : Bool) :
    (shouldRetry cfg (some s) none = true ↔ s ∈ cfg.retryOnStatus)
  ∧ shouldRetry cfg none (some e) = cfg.retryOnTimeout
  ∧ (cfg.retryOnTimeout = false → ∀ (f : Nat → ReqOutcome) (t : Bool),
      f 0 = .exc t → requestWithRetry cfg f = .raised t 1) := by
  refine ⟨by simp [shouldRetry], rfl, fun hrot f t hf => ?_⟩
  unfold requestWithRetry retryAux
  simp [hf, shouldRetry, hrot]

/-- C4 amended, instantiated: flag unset, a non-timeout exception
propagates with exactly one call. -/
theorem retry_classification_amended_witness :
    requestWithRetry { defaultRetryConfig with retryOnTimeout := false }
        (fun _ => .exc false)
      = .raised false 1 :=
  (retry_classification_amended
      { defaultRetryConfig with retryOnTimeout := false } 503 false).2.2
    rfl (fun _ => .exc false) false rfl

/-- C5, counterexample: a malformed file *does* raise: `json.load`
(and the mandatory-key lookups) are not guarded, so loading cookies or
importing a session from malformed content propagates the parse
error instead of returning normally. -/
theorem malformed_import_raises_counterexample :
    loadCookies { cookies := [], headers := [] } .malformed = .error ()
  ∧ importSession { cookies := [], headers := [] } .malformed = .error () :=
  ⟨rfl, rfl⟩

/-- C5, amended: only a *missing* file is tolerated — the call returns
normally with the session state exactly unchanged; malformed content
raises out of the JSON parse in both operations. -/
theorem missing_import_leaves_state (st : SessionState) :
    loadCookies st .missing = .ok st
  ∧ importSession st .missing = .ok st
  ∧ loadCookies st .malformed = .error ()
  ∧ importSession st .malformed = .error () :=
  ⟨rfl, rfl, rfl, rfl⟩

/-- C6 (confirmed): the header composer increments the request counter
by exactly one, unconditionally; and — provided the caller overrides
do not themselves set `cache-control`, which would win — the composed
set maps `cache-control` to "no-cache" exactly when the counter is at
its initial value 0, and to "max-age=0" on every later call. -/
theorem cache_control_first_request_and_counter (st : ClientState)
    (extra : List (String × String)) (rt : String) :
    (getHeaders st extra rt).2.requestCount = st.requestCount + 1
  ∧ ((∀ kv ∈ extra, kv.1 ≠ "cache-control") →
      odGet (getHeaders st extra rt).1 "cache-control"
        = some (if st.requestCount = 0 then "no-cache" else "max-age=0")) :=
  ⟨rfl, fun h => cacheControl_of_getHeaders st extra rt h⟩

/-- A concrete chrome profile for instantiating the header-composer
theorems. -/
def sampleProfile : FingerprintProfile :=
  { ja3 := "771,4865-4866,0-10-13,29-23-24,0"
    akamai := "1:65536;2:0;4:6291456;6:262144|15663105|0|m,a,s,p"
    userAgent := "Mozilla/5.0"
    secChUa := none
    secChUaMobile := "?0"
    secChUaPlatform := "\"Windows\""
    browserType := "chrome"
    platform := "Windows"
    mobile := false }

/-- C6, instantiated at a fresh client: first composed set says
"no-cache" and the counter moves 0 to 1. -/
theorem cache_control_first_request_and_counter_witness :
    (getHeaders { requestCount := 0, profile := sampleProfile } [] "navigate").2.requestCount = 1
  ∧ odGet (getHeaders { requestCount := 0, profile := sampleProfile } [] "navigate").1
      "cache-control" = some "no-cache" := by
  have h := cache_control_first_request_and_counter
    { requestCount := 0, profile := sampleProfile } [] "navigate"
  exact ⟨h.1, by simpa using h.2 (by simp)⟩

/-- C7 (confirmed): for every selected identity and all random draws,
re-deriving the browser type from the profile's own header fields
(user-agent and client-hint string) gives back exactly the
`browser_type` stored in the profile, which is by construction the one
fed to both the TLS and the HTTP/2 fingerprint generator. -/
theorem profile_browser_type_consistent (uaInfo : UserAgentInfo)
    (js : List Nat) (ra : AkamaiGenerator.AkRnd) :
    BrowserInfo.detectBrowserType (generateProfile uaInfo js ra).userAgent
        (generateProfile uaInfo js ra).secChUa
      = (generateProfile uaInfo js ra).browserType
  ∧ (generateProfile uaInfo js ra).ja3
      = JA3Generator.generate
          (BrowserInfo.extractVersion uaInfo.ua
            ((generateProfile uaInfo js ra).browserType))
          ((generateProfile uaInfo js ra).browserType) js
  ∧ (generateProfile uaInfo js ra).akamai
      = AkamaiGenerator.generate ((generateProfile uaInfo js ra).browserType) ra :=
  ⟨rfl, rfl, rfl⟩

/-- C8 (confirmed): the curve field contains the hybrid post-quantum
group id 4588 exactly when the version is at least 130, and below 130
it is the classic set only. -/
theorem curves_hybrid_iff_version130 (version : Nat) :
    ("4588" ∈ dashIds (JA3Generator.curvesFor version) ↔ 130 ≤ version)
  ∧ (version < 130 → JA3Generator.curvesFor version = "29-23-24") := by
  by_cases h : 130 ≤ version
  · refine ⟨?_, fun hlt => absurd h (by omega)⟩
    simp only [JA3Generator.curvesFor, if_pos h]
    exact ⟨fun _ => h, fun _ => by decide⟩
  · refine ⟨?_, fun _ => by simp [JA3Generator.curvesFor, h]⟩
    simp only [JA3Generator.curvesFor, if_neg h]
    exact ⟨fun hmem => absurd hmem (by decide), fun h2 => absurd h2 h⟩

/-- C8, instantiated at versions 131 and 129. -/
theorem curves_hybrid_iff_version130_witness :
    "4588" ∈ dashIds (JA3Generator.curvesFor 131)
  ∧ JA3Generator.curvesFor 129 = "29-23-24" :=
  ⟨(curves_hybrid_iff_version130 131).1.mpr (by norm_num),
   (curves_hybrid_iff_version130 129).2 (by norm_num)⟩

/-- C9 (confirmed): the backoff delay is
`backoff_factor * 2 ^ attempt` with jitter disabled, and that value
scaled by a factor in [1/2, 1] (in fact [1/2, 1)) with jitter enabled;
it is never negative, and with jitter disabled it is strictly
increasing in the attempt index. -/
theorem backoff_time_formula (cfg : RetryConfig) (a b : Nat) (r : ℚ)
    (hb : 0 < cfg.backoffFactor) (hr0 : 0 ≤ r) (hr1 : r < 1) :
    (cfg.jitter = false → getBackoffTime cfg a r = cfg.backoffFactor * 2 ^ a)
  ∧ (cfg.jitter = true →
      ∃ fac : ℚ, 1 / 2 ≤ fac ∧ fac ≤ 1
        ∧ getBackoffTime cfg a r = cfg.backoffFactor * 2 ^ a * fac)
  ∧ 0 ≤ getBackoffTime cfg a r
  ∧ (cfg.jitter = false → a < b →
      getBackoffTime cfg a r < getBackoffTime cfg b r) := by
  refine ⟨fun hj => by simp [getBackoffTime, hj],
    fun hj => ⟨1 / 2 + r * (1 / 2), by linarith, by linarith,
      by simp [getBackoffTime, hj]⟩, ?_, fun hj hab => ?_⟩
  · by_cases hj : cfg.jitter
    · simp only [getBackoffTime, hj, if_true]
      exact mul_nonneg (mul_nonneg hb.le (by positivity)) (by linarith)
    · simp only [getBackoffTime, hj, if_false]
      exact mul_nonneg hb.le (by positivity)
  · simp only [getBackoffTime, hj, if_false]
    exact mul_lt_mul_of_pos_left (pow_lt_pow_right₀ (by norm_num) hab) hb

/-- C9, instantiated with jitter disabled at the default factor 1/2:
the first delay is the factor itself and the next one is strictly
larger. -/
theorem backoff_time_formula_witness :
    getBackoffTime { defaultRetryConfig with jitter := false } 0 0
      = (1 / 2 : ℚ) * 2 ^ 0
  ∧ getBackoffTime { defaultRetryConfig with jitter := false } 0 0
      < getBackoffTime { defaultRetryConfig with jitter := false } 1 0 := by
  have h := backoff_time_formula { defaultRetryConfig with jitter := false }
    0 1 0 (by norm_num [defaultRetryConfig]) le_rfl (by norm_num)
  exact ⟨h.1 rfl, h.2.2.2 rfl (by norm_num)⟩

/-- C10 (confirmed): regenerating the profile (`randomize`, as also
invoked by the per-request randomization mode) leaves the request
counter untouched, so on a client that has already composed a request
the next composed header set still carries "max-age=0", not
"no-cache". -/
theorem randomize_preserves_request_count (st : ClientState)
    (uaInfo : UserAgentInfo) (js : List Nat) (ra : AkamaiGenerator.AkRnd)
    (extra : List (String × String)) (rt : String)
    (h : st.requestCount ≠ 0) :
    (randomize st uaInfo js ra).requestCount = st.requestCount
  ∧ ((∀ kv ∈ extra, kv.1 ≠ "cache-control") →
      odGet (getHeaders (randomize st uaInfo js ra) extra rt).1 "cache-control"
        = some "max-age=0") := by
  refine ⟨rfl, fun hx => ?_⟩
  have hc := cacheControl_of_getHeaders (randomize st uaInfo js ra) extra rt hx
  rw [hc]
  have hcount : (randomize st uaInfo js ra).requestCount = st.requestCount := rfl
  rw [hcount, if_neg h]

/-- A concrete selected identity for instantiating `randomize`. -/
def sampleUAInfo : UserAgentInfo :=
  { ua := "Mozilla/5.0 (Windows NT 10.0; Win64; x64) Chrome/143.0.0.0 Safari/537.36"
    secChUa := none
    platform := "Windows"
    mobile := false }

/-- C10, instantiated on a client whose counter is already 1. -/
theorem randomize_preserves_request_count_witness :
    (randomize { requestCount := 1, profile := sampleProfile } sampleUAInfo []
        ⟨false, 0, 0, 0, 0⟩).requestCount = 1
  ∧ odGet (getHeaders (randomize { requestCount := 1, profile := sampleProfile }
        sampleUAInfo [] ⟨false, 0, 0, 0, 0⟩) [] "api").1 "cache-control"
      = some "max-age=0" := by
  have h := randomize_preserves_request_count
    { requestCount := 1, profile := sampleProfile } sampleUAInfo []
    ⟨false, 0, 0, 0, 0⟩ [] "api" (by decide)
  exact ⟨h.1, h.2 (by simp)⟩

end HttpClient
